import Mathlib

/-!
Shallow embedding of the xo python template's dialect-aware SQL statement
synthesizer and identifier-resolution subsystem
(src/templates/python/python.go, package pytpl), together with proofs of the
specification's claims about it.

Go slices become `List`, Go strings become `String`, the dynamically typed
template argument becomes the closed variant `TplData`, the `*Funcs` receiver
becomes an explicit `Funcs` value, and the one mutation (`Funcs.shorts`)
becomes explicit state passing.  Dialect placeholder numbering (`Funcs.nth`)
is a function field, exactly as in the source where it is injected by the
loader.  External utility primitives that the source only calls
(snaker case conversion, the loader's sqlite3 type mapper, the dialect
placeholder numberings) are modelled from the spec and marked as such.
-/

namespace Pytpl

/-- Mirrors the `Field` template struct.  The Go field `Type` is spelled
`Typ` because `Type` is a Lean keyword. -/
structure Field where
  PythonName : String
  SQLName : String
  Typ : String
  Zero : String
  IsPrimary : Bool
  IsSequence : Bool
  Comment : String
  deriving Repr, DecidableEq, Inhabited

/-- Mirrors the `Table` template struct (Go field `Type` spelled `Typ`). -/
structure Table where
  Typ : String
  PythonName : String
  SQLName : String
  PrimaryKeys : List Field
  Fields : List Field
  Manual : Bool
  Comment : String
  deriving Repr, DecidableEq, Inhabited

/-- Mirrors the `Index` template struct (Go field `Table` spelled `table`). -/
structure Index where
  SQLName : String
  Func : String
  table : Table
  Fields : List Field
  IsUnique : Bool
  IsPrimary : Bool
  Comment : String
  deriving Repr, DecidableEq, Inhabited

/-- Mirrors the `Proc` template struct (Go field `Type` spelled `Typ`). -/
structure Proc where
  Typ : String
  PythonName : String
  OverloadedName : String
  SQLName : String
  Signature : String
  Params : List Field
  Returns : List Field
  Void : Bool
  Overloaded : Bool
  Comment : String
  deriving Repr, DecidableEq, Inhabited

/-- Mirrors the `ForeignKey` template struct (Go field `Table` spelled
`table`). -/
structure ForeignKey where
  PythonName : String
  SQLName : String
  table : Table
  Fields : List Field
  RefTable : String
  RefFields : List Field
  RefFunc : String
  Comment : String
  deriving Repr, DecidableEq, Inhabited

/-- The part of the `Funcs` receiver consulted by the statement synthesizer
and the identifier resolver.  `nth` is the dialect-supplied placeholder
numbering function, injected in `NewFuncs` via `loader.NthParam`. -/
structure Funcs where
  driver : String
  schema : String
  nth : Nat → String
  conflict : String
  escSchema : Bool
  escTable : Bool
  escColumn : Bool
  oracleType : String
  shorts : List (String × String)

/-- The dynamically typed value handed to the sqlstr template funcs; the
`other` constructor carries the Go type name printed by the `%T` verb in the
unsupported-type branches. -/
inductive TplData where
  | tbl (t : Table)
  | idx (i : Index)
  | prc (p : Proc)
  | other (typeName : String)
  deriving Repr, DecidableEq, Inhabited

/-- The string Go's `%T` verb prints for a `TplData` value. -/
def goTypeName : TplData → String
  | .tbl _ => "pytpl.Table"
  | .idx _ => "pytpl.Index"
  | .prc _ => "pytpl.Proc"
  | .other s => s

/-- `escfn` escapes `s` (python.go). -/
def escfn (s : String) : String := "\"" ++ s ++ "\""

/-- `colname` returns the ColumnName of a field escaped if needed. -/
def colname (f : Funcs) (z : Field) : String :=
  if f.escColumn then escfn z.SQLName else z.SQLName

/-- `schemafn` takes a series of names and joins them with the schema name,
mirroring the Go switch case by case. -/
def schemafn (f : Funcs) (names : List String) : String :=
  let s := f.schema
  let names := if f.escTable then names.map escfn else names
  let n := String.intercalate "." names
  if s = "" ∧ n = "" then ""
  else if f.driver = "sqlite3" ∧ n = "" then f.schema
  else if f.driver = "sqlite3" then n
  else if s ≠ "" ∧ n ≠ "" then (if f.escSchema then escfn s else s) ++ "." ++ n
  else s ++ n

/-- The loop body of `sqlstr_insert_base`: walks the fields with the running
placeholder counter `n`, skipping sequence columns unless `all`, and returns
the column-name list and the placeholder list. -/
def insert_fields_vals (f : Funcs) (all : Bool) : List Field → Nat → List String × List String
  | [], _ => ([], [])
  | z :: zs, n =>
    if z.IsSequence && !all then insert_fields_vals f all zs n
    else
      let r := insert_fields_vals f all zs (n + 1)
      (colname f z :: r.1, f.nth n :: r.2)

/-- `sqlstr_insert_base` builds an INSERT query.  If not `all`, sequence
columns are skipped. -/
def sqlstr_insert_base (f : Funcs) (all : Bool) (v : TplData) : List String :=
  match v with
  | .tbl x =>
    let fv := insert_fields_vals f all x.Fields 0
    ["INSERT INTO " ++ schemafn f [x.SQLName] ++ " (",
     String.intercalate ", " fv.1,
     ") VALUES (",
     String.intercalate ", " fv.2,
     ")"]
  | _ => ["[[ UNSUPPORTED TYPE 17: " ++ goTypeName v ++ " ]]"]

/-- `sqlstr_insert_manual` builds an INSERT query that inserts all fields. -/
def sqlstr_insert_manual (f : Funcs) (v : TplData) : List String :=
  sqlstr_insert_base f true v

/-- The `seq`/`count` loop at the top of `sqlstr_insert`: `seq` ends as the
last sequence field (Go zero `Field` if none), `count` as the number of
non-sequence fields. -/
def seq_count (fields : List Field) : Field × Nat :=
  fields.foldl
    (fun acc field => if field.IsSequence then (field, acc.2) else (acc.1, acc.2 + 1))
    (default, 0)

/-- Go's in-place `lines[len(lines)-1] += s`. -/
def append_last (lines : List String) (s : String) : List String :=
  match lines with
  | [] => []
  | [a] => [a ++ s]
  | a :: rest => a :: append_last rest s

/-- `sqlstr_insert` builds an INSERT query, skipping the sequence field, with
the applicable RETURNING clause for generated primary key fields. -/
def sqlstr_insert (f : Funcs) (v : TplData) : List String :=
  match v with
  | .tbl x =>
    let sc := seq_count x.Fields
    let lines := sqlstr_insert_base f false v
    if f.driver = "oracle" then
      if f.oracleType = "ora" then
        append_last lines (" RETURNING " ++ colname f sc.1 ++ " INTO " ++ f.nth sc.2)
      else if f.oracleType = "godror" then
        append_last lines (" RETURNING " ++ colname f sc.1 ++ " /*LASTINSERTID*/ INTO :pk")
      else
        ["[[ UNSUPPORTED ORACLE TYPE: " ++ f.oracleType ++ "]]"]
    else if f.driver = "postgres" then
      append_last lines (" RETURNING " ++ colname f sc.1)
    else if f.driver = "sqlserver" then
      append_last lines "; SELECT ID = CONVERT(BIGINT, SCOPE_IDENTITY())"
    else lines
  | _ => ["[[ UNSUPPORTED TYPE 18: " ++ goTypeName v ++ " ]]"]

/-- The loop of `sqlstr_update_base`: builds the `name = param` list over the
non-primary-key fields (placeholder `nth n` when the prefix argument `pre` is
empty, prefixed column name otherwise) and returns the final counter. -/
def update_list_n (f : Funcs) (pre : String) : List Field → Nat → List String × Nat
  | [], n => ([], n)
  | z :: zs, n =>
    if z.IsPrimary then update_list_n f pre zs n
    else
      let name := colname f z
      let param := if pre ≠ "" then pre ++ name else f.nth n
      let r := update_list_n f pre zs (n + 1)
      ((name ++ " = " ++ param) :: r.1, r.2)

/-- `sqlstr_update_base` builds an UPDATE query, returning the number of SET
parameters together with the fragments. -/
def sqlstr_update_base (f : Funcs) (pre : String) (v : TplData) : Nat × List String :=
  match v with
  | .tbl x =>
    let r := update_list_n f pre x.Fields 0
    let name := if pre = "" then schemafn f [x.SQLName] ++ " " else ""
    (r.2, ["UPDATE " ++ name ++ "SET ",
           String.intercalate ", " r.1 ++ " "])
  | _ => (0, ["[[ UNSUPPORTED TYPE 19: " ++ goTypeName v ++ " ]]"])

/-- `sqlstr_update` builds an UPDATE query, using primary key fields as the
WHERE clause, placeholder numbering continuing from the SET clause. -/
def sqlstr_update (f : Funcs) (v : TplData) : List String :=
  match v with
  | .tbl x =>
    let r := sqlstr_update_base f "" v
    let list := x.PrimaryKeys.enum.map fun p => colname f p.2 ++ " = " ++ f.nth (r.1 + p.1)
    r.2 ++ ["WHERE " ++ String.intercalate " AND " list]
  | _ => ["[[ UNSUPPORTED TYPE 20: " ++ goTypeName v ++ " ]]"]

/-- `sqlstr_upsert_postgres_sqlite` builds an upsert query for postgres and
sqlite: ON CONFLICT over the raw primary-key SQL names, then the
EXCLUDED.-prefixed update list. -/
def sqlstr_upsert_postgres_sqlite (f : Funcs) (v : TplData) : List String :=
  match v with
  | .tbl x =>
    let conflicts := x.PrimaryKeys.map Field.SQLName
    let lines := [" ON CONFLICT (" ++ String.intercalate ", " conflicts ++ ") DO "]
    let u := sqlstr_update_base f "EXCLUDED." v
    lines ++ u.2
  | _ => ["[[ UNSUPPORTED TYPE 22: " ++ goTypeName v ++ " ]]"]

/-- The loop of `sqlstr_upsert_mysql`: one `c = VALUES(c)` entry for every
non-sequence column. -/
def mysql_update_list (f : Funcs) : List Field → List String
  | [] => []
  | z :: zs =>
    if z.IsSequence then mysql_update_list f zs
    else
      let name := colname f z
      (name ++ " = VALUES(" ++ name ++ ")") :: mysql_update_list f zs

/-- `sqlstr_upsert_mysql` builds an upsert query for mysql. -/
def sqlstr_upsert_mysql (f : Funcs) (v : TplData) : List String :=
  match v with
  | .tbl x =>
    [" ON DUPLICATE KEY UPDATE ", String.intercalate ", " (mysql_update_list f x.Fields)]
  | _ => ["[[ UNSUPPORTED TYPE 23: " ++ goTypeName v ++ " ]]"]

/-- The param-list loop of `sqlstr_upsert_sqlserver_oracle`: sequence columns
are skipped entirely; primary keys are kept out of the update params but kept
in the insert params/values.  Result: (updateParams, insertParams, insertVals). -/
def merge_params : List Field → List String × List String × List String
  | [] => ([], [], [])
  | z :: zs =>
    let r := merge_params zs
    if z.IsSequence then r
    else if z.IsPrimary then
      (r.1, z.SQLName :: r.2.1, ("s." ++ z.SQLName) :: r.2.2)
    else
      (("t." ++ z.SQLName ++ " = s." ++ z.SQLName) :: r.1,
       z.SQLName :: r.2.1, ("s." ++ z.SQLName) :: r.2.2)

/-- `sqlstr_upsert_sqlserver_oracle` builds a MERGE upsert query for
sqlserver and oracle. -/
def sqlstr_upsert_sqlserver_oracle (f : Funcs) (v : TplData) : List String :=
  match v with
  | .tbl x =>
    let lines :=
      if f.driver = "sqlserver" then ["MERGE " ++ schemafn f [x.SQLName] ++ " AS t "]
      else if f.driver = "oracle" then ["MERGE " ++ schemafn f [x.SQLName] ++ "t "]
      else []
    let fields := x.Fields.enum.map fun p => f.nth p.1 ++ " " ++ p.2.SQLName
    let predicate := x.PrimaryKeys.map fun field => "s." ++ field.SQLName ++ " = t." ++ field.SQLName
    let closing :=
      if f.driver = "sqlserver" then ") AS s "
      else if f.driver = "oracle" then "FROM DUAL ) s "
      else ""
    let lines := lines ++
      ["USING (",
       "SELECT " ++ String.intercalate ", " fields ++ " ",
       closing,
       "ON " ++ String.intercalate " AND " predicate ++ " "]
    let mp := merge_params x.Fields
    lines ++
      ["WHEN MATCHED THEN ", "UPDATE SET ",
       String.intercalate ", " mp.1 ++ " ",
       "WHEN NOT MATCHED THEN ",
       "INSERT (",
       String.intercalate ", " mp.2.1,
       ") VALUES (",
       String.intercalate ", " mp.2.2,
       ");"]
  | _ => ["[[ UNSUPPORTED TYPE 24: " ++ goTypeName v ++ " ]]"]

/-- `sqlstr_upsert` builds an upsert: a full-field insert followed by the
dialect-specific conflict clause (MERGE replaces the insert for
sqlserver/oracle); an unmatched driver falls through to the shared
unsupported-type return. -/
def sqlstr_upsert (f : Funcs) (v : TplData) : List String :=
  match v with
  | .tbl x =>
    let lines := sqlstr_insert_base f true (.tbl x)
    if f.driver = "postgres" ∨ f.driver = "sqlite3" then
      lines ++ sqlstr_upsert_postgres_sqlite f (.tbl x)
    else if f.driver = "mysql" then
      lines ++ sqlstr_upsert_mysql f (.tbl x)
    else if f.driver = "sqlserver" ∨ f.driver = "oracle" then
      sqlstr_upsert_sqlserver_oracle f (.tbl x)
    else
      ["[[ UNSUPPORTED TYPE 21 " ++ f.driver ++ ": " ++ goTypeName v ++ " ]]"]
  | _ => ["[[ UNSUPPORTED TYPE 21 " ++ f.driver ++ ": " ++ goTypeName v ++ " ]]"]

/-- `sqlstr_delete` builds a DELETE query for the primary keys. -/
def sqlstr_delete (f : Funcs) (v : TplData) : List String :=
  match v with
  | .tbl x =>
    let list := x.PrimaryKeys.enum.map fun p => colname f p.2 ++ " = " ++ f.nth p.1
    ["DELETE FROM " ++ schemafn f [x.SQLName] ++ " ",
     "WHERE " ++ String.intercalate " AND " list]
  | _ => ["[[ UNSUPPORTED TYPE 25: " ++ goTypeName v ++ " ]]"]

/-- `sqlstr_index` builds an index query. -/
def sqlstr_index (f : Funcs) (v : TplData) : List String :=
  match v with
  | .idx x =>
    let fields := x.table.Fields.map (colname f)
    let list := x.Fields.enum.map fun p => colname f p.2 ++ " = " ++ f.nth p.1
    ["SELECT ",
     String.intercalate ", " fields ++ " ",
     "FROM " ++ schemafn f [x.table.SQLName] ++ " ",
     "WHERE " ++ String.intercalate " AND " list]
  | _ => ["[[ UNSUPPORTED TYPE 26: " ++ goTypeName v ++ " ]]"]

/-- Go's `fmt.Sprintf` applied to an empty format string with two surplus
string arguments (the unmatched-driver corner of `sqlstr_func` and
`sqlstr_proc`). -/
def sprintfExtra2 (a b : String) : String :=
  "%!(EXTRA string=" ++ a ++ ", string=" ++ b ++ ")"

/-- `sqlstr_func` builds an inline function-call SELECT. -/
def sqlstr_func (f : Funcs) (v : TplData) : List String :=
  match v with
  | .prc x =>
    let list := x.Params.enum.map fun p => f.nth p.1
    let args := String.intercalate ", " list
    let name := schemafn f [x.SQLName]
    if f.driver = "postgres" then ["SELECT * FROM " ++ name ++ "(" ++ args ++ ")"]
    else if f.driver = "mysql" then ["SELECT " ++ name ++ "(" ++ args ++ ")"]
    else if f.driver = "sqlserver" then ["SELECT " ++ name ++ "(" ++ args ++ ") AS OUT"]
    else if f.driver = "oracle" then ["SELECT " ++ name ++ "(" ++ args ++ ") FROM dual"]
    else [sprintfExtra2 name args]
  | _ => ["[[ UNSUPPORTED TYPE 28: " ++ goTypeName v ++ " ]]"]

/-- `sqlstr_proc` builds a stored procedure call (a "function" kind is
delegated to `sqlstr_func`). -/
def sqlstr_proc (f : Funcs) (v : TplData) : List String :=
  match v with
  | .prc x =>
    if x.Typ = "function" then sqlstr_func f v
    else
      let l := if f.driver = "oracle" then x.Params ++ x.Returns else x.Params
      let list := l.enum.map fun p =>
        if f.driver = "oracle" then ":" ++ p.2.SQLName else f.nth p.1
      let args := String.intercalate ", " list
      let name := if f.driver = "oracle" then x.SQLName else schemafn f [x.SQLName]
      if f.driver = "postgres" ∨ f.driver = "mysql" then ["CALL " ++ name ++ "(" ++ args ++ ")"]
      else if f.driver = "sqlserver" then [name]
      else if f.driver = "oracle" then ["BEGIN " ++ name ++ "(" ++ args ++ "); END;"]
      else [sprintfExtra2 name args]
  | _ => ["[[ UNSUPPORTED TYPE 27: " ++ goTypeName v ++ " ]]"]

/-- The `sqlstr` dispatcher: routes the operation name to its builder and
joins the fragments into a python triple-quoted assignment; an unknown
operation name returns the UNKNOWN QUERY TYPE placeholder. -/
def sqlstr (f : Funcs) (typ : String) (indent : String) (v : TplData) : String :=
  let lines? : Option (List String) :=
    if typ = "insert_manual" then some (sqlstr_insert_manual f v)
    else if typ = "insert" then some (sqlstr_insert f v)
    else if typ = "update" then some (sqlstr_update f v)
    else if typ = "upsert" then some (sqlstr_upsert f v)
    else if typ = "delete" then some (sqlstr_delete f v)
    else if typ = "proc" then some (sqlstr_proc f v)
    else if typ = "index" then some (sqlstr_index f v)
    else none
  match lines? with
  | none => "sqlstr = `UNKNOWN QUERY TYPE: " ++ typ ++ "`"
  | some lines =>
    let delim := "''' + \\\n" ++ indent ++ "'''"
    "sqlstr = \\\n" ++ indent ++ "'''" ++ String.intercalate delim lines ++ "'''"

/-- `pythonReservedNames`: the fixed map from python reserved names (keywords
and builtin type names) to safe substitutes (python.go, all 47 entries). -/
def pythonReservedNames : List (String × String) :=
  [("False", "false"), ("None", "none"), ("True", "true"), ("and", "and_"),
   ("as", "as_"), ("assert", "assrt"), ("break", "brk"), ("class", "cls"),
   ("continue", "cnt"), ("def", "def_"), ("elif", "elf"), ("else", "els"),
   ("except", "expt"), ("finally", "fnl"), ("for", "for_"), ("from", "frm"),
   ("global", "glb"), ("if", "if_"), ("import", "impt"), ("in", "in_"),
   ("is", "is_"), ("lambda", "lbd"), ("nonlocal", "nlcl"), ("not", "not_"),
   ("or", "or_"), ("pass", "pss"), ("raise", "rse"), ("return", "rtn"),
   ("try", "try_"), ("while", "whl"), ("with", "wth"), ("yield", "yld"),
   ("int", "i"), ("float", "f"), ("complex", "c"), ("list", "l"),
   ("tuple", "t"), ("range", "r"), ("str", "s"), ("bytes", "b"),
   ("bytearray", "ba"), ("memoryview", "m"), ("set", "st"),
   ("frozenset", "fs"), ("dict", "d"), ("type", "t"), ("bool", "bl")]

/-- `checkName` substitutes a python reserved name by its safe form. -/
def checkName (name : String) : String :=
  match pythonReservedNames.lookup name with
  | some n => n
  | none => name

/-- `templateReservedNames`: the template-internal reserved names
(variables and packages used by the emitted code). -/
def templateReservedNames : List String :=
  ["ctx", "db", "err", "log", "logf", "res", "rows",
   "context", "csv", "driver", "errors", "fmt", "hstore", "regexp", "sql",
   "strings", "time", "uuid"]

/-- Modelled from the spec: `snaker.CamelToSnake`, the external case-conversion
primitive (src contains only its call sites; the spec treats case-conversion
primitives as pure utility collaborators).  Splits camel-case words by
inserting an underscore before an uppercase letter that follows a lowercase
letter or digit, and lowercases everything. -/
def camelToSnakeAux : List Char → Option Char → List Char
  | [], _ => []
  | c :: cs, prev =>
    let rest := camelToSnakeAux cs (some c)
    match prev with
    | some p =>
      if c.isUpper && (p.isLower || p.isDigit) then '_' :: c.toLower :: rest
      else c.toLower :: rest
    | none => c.toLower :: rest

/-- Modelled from the spec: wrapper around `camelToSnakeAux` (see there). -/
def camelToSnake (s : String) : String :=
  (camelToSnakeAux s.toList none).asString

/-- Structural model of Go `strings.Split` with a single-character separator
(semantically `String.splitOn`, restated by structural recursion over the
characters so that concrete proofs can evaluate it). -/
def splitCharAux (sep : Char) : List Char → List Char → List String
  | [], acc => [acc.reverse.asString]
  | c :: cs, acc =>
    if c = sep then acc.reverse.asString :: splitCharAux sep cs []
    else splitCharAux sep cs (c :: acc)

/-- Split a string on a single-character separator (see `splitCharAux`). -/
def splitChar (sep : Char) (s : String) : List String := splitCharAux sep s.toList []

/-- Split a string on underscores (Go `strings.Split(s, "_")`). -/
def splitUnderscore (s : String) : List String := splitChar '_' s

/-- Structural model of Go `strings.ToLower` (character-wise lowercasing,
semantically `String.toLower`, restated by structural recursion over the
characters so that concrete proofs can evaluate it). -/
def toLowerStr (s : String) : String := (s.toList.map Char.toLower).asString

/-- The short-name computation inside `short`: first letter of each word of
the snake-cased name, skipping empty words and the stop-word `id`. -/
def short_initials (n : String) : String :=
  String.join
    ((splitUnderscore (toLowerStr (camelToSnake n))).filterMap fun s =>
      if s.length > 0 ∧ s ≠ "id" then some (s.take 1) else none)

/-- The argument value passed to `short`; `other` carries the `%T` type name
of the unsupported branch. -/
inductive ShortArg where
  | str (s : String)
  | tbl (t : Table)
  | other (typeName : String)
  deriving Repr, DecidableEq, Inhabited

/-- `short` generates the abbreviation for a type name: consult the `shorts`
registry, otherwise derive initials, pass through `checkName`, store; in both
paths append the conflict suffix when the name is template-reserved.  Returns
the name together with the (possibly updated) `Funcs` state. -/
def short (f : Funcs) (v : ShortArg) : String × Funcs :=
  let n? : Option String :=
    match v with
    | .str x => some x
    | .tbl x => some x.PythonName
    | .other _ => none
  match n? with
  | none => ("[[ UNSUPPORTED TYPE 30: " ++
      (match v with | .other s => s | _ => "") ++ " ]]", f)
  | some n =>
    let r : String × Funcs :=
      match f.shorts.lookup n with
      | some name => (name, f)
      | none =>
        let name := checkName (short_initials n)
        (name, { f with shorts := (n, name) :: f.shorts })
    let name := if templateReservedNames.contains r.1 then r.1 ++ f.conflict else r.1
    (name, r.2)

/-- The relevant part of `xo.Type` (the schema loader's native type). -/
structure XoType where
  typ : String
  nullable : Bool
  deriving Repr, DecidableEq, Inhabited

/-- The relevant part of `xo.Field`. -/
structure XoField where
  Name : String
  Typ : XoType
  IsPrimary : Bool
  IsSequence : Bool
  deriving Repr, DecidableEq, Inhabited

/-- The relevant part of `xo.Table`. -/
structure XoTable where
  Name : String
  Columns : List XoField
  Manual : Bool
  deriving Repr, DecidableEq, Inhabited

/-- Modelled from the spec: `loader.Sqlite3PythonType`, the sqlite3 type
mapper (repository code outside src; spec section 4.1).  Maps each native
category to one target type and zero literal, wraps nullable types in
`Optional` with zero `None`, and fails fast on an unrecognized native type. -/
def Sqlite3PythonType (typ : XoType) (_schema _itype _utype : String) :
    Except String (String × String) :=
  let base? : Option (String × String) :=
    if typ.typ = "bool" then some ("bool", "False")
    else if typ.typ = "text" then some ("str", "''")
    else if typ.typ = "integer" then some ("int", "0")
    else if typ.typ = "real" then some ("float", "0.0")
    else if typ.typ = "blob" then some ("bytes", "b''")
    else none
  match base? with
  | none => .error ("unknown type " ++ typ.typ)
  | some (t, z) =>
    if typ.nullable then .ok ("Optional[" ++ t ++ "]", "None") else .ok (t, z)

/-- `pythonType` dispatches on the driver: only sqlite3 delegates to the
loader's type mapper, every other driver (known or unknown) is an error. -/
def pythonType (driver : String) (schema : String) (typ : XoType) :
    Except String (String × String) :=
  if driver = "mysql" then .error "mysql driver not supported for python"
  else if driver = "oracle" then .error "oracle driver not supported for python"
  else if driver = "postgres" then .error "postgres driver not supported for python"
  else if driver = "sqlite3" then Sqlite3PythonType typ schema "int" "int"
  else if driver = "sqlserver" then .error "sqlserver driver not supported for python"
  else .error ("unknown driver \"" ++ driver ++ "\"")

/-- `convertField` maps the native type via `pythonType` (propagating its
error) and builds the template `Field`. -/
def convertField (driver schema : String) (tf : String → String) (fld : XoField) :
    Except String Field :=
  match pythonType driver schema fld.Typ with
  | .error e => .error e
  | .ok (typ, zero) =>
    .ok { Typ := typ, PythonName := tf fld.Name, SQLName := fld.Name, Zero := zero,
          IsPrimary := fld.IsPrimary, IsSequence := fld.IsSequence, Comment := "" }

/-- Modelled from the spec: the `pascal` transform built on snaker (external
case-conversion primitive; the error paths proved below never apply it). -/
def pascal (s : String) : String :=
  let words := splitUnderscore (camelToSnake s)
  String.join (words.map fun w => w.capitalize)

/-- The `snake` transform: `snaker.CamelToSnake` of the underscore-joined
arguments (python.go); the snaker primitive itself is the spec-modelled
`camelToSnake`.  Go's variadic call sites join their arguments with an
underscore first, which callers below do explicitly. -/
def snake (s : String) : String := camelToSnake s

/-- Modelled from the spec: `inflector.Singularize`, the external inflection
primitive (out of scope per the spec; only its purity matters to the
claims). -/
def inflectorSingularize (s : String) : String :=
  if s.endsWith "s" then s.dropRight 1 else s

/-- `singularize` singularizes only the segment after the last underscore,
keeping the prefix (including that underscore) unchanged (python.go). -/
def singularize (s : String) : String :=
  let ws := splitUnderscore s
  match ws.dropLast, ws.getLast? with
  | [], _ => inflectorSingularize s
  | front, some last => String.intercalate "_" front ++ "_" ++ inflectorSingularize last
  | _, none => inflectorSingularize s

/-- The column loop of `convertTable`: converts each column (propagating the
first `convertField` error) and collects the primary-key columns. -/
def convertColumns (driver schema : String) (tf : String → String) :
    List XoField → Except String (List Field × List Field)
  | [] => .ok ([], [])
  | z :: zs =>
    match convertField driver schema tf z with
    | .error e => .error e
    | .ok fld =>
      match convertColumns driver schema tf zs with
      | .error e => .error e
      | .ok (cols, pks) =>
        .ok (fld :: cols, if z.IsPrimary then fld :: pks else pks)

/-- `convertTable` converts an `xo.Table` to a template `Table`, failing as
soon as a column's type fails to map. -/
def convertTable (driver schema : String) (t : XoTable) : Except String Table :=
  match convertColumns driver schema pascal t.Columns with
  | .error e => .error e
  | .ok (cols, pks) =>
    .ok { Typ := "", PythonName := pascal (singularize t.Name), SQLName := t.Name,
          Fields := cols, PrimaryKeys := pks, Manual := t.Manual, Comment := "" }

/-- The relevant part of `xo.Index`. -/
structure XoIndex where
  Name : String
  Func : String
  Fields : List XoField
  IsUnique : Bool
  IsPrimary : Bool
  deriving Repr, DecidableEq, Inhabited

/-- The relevant part of `xo.ForeignKey`. -/
structure XoForeignKey where
  Name : String
  Func : String
  Fields : List XoField
  RefTable : String
  RefFields : List XoField
  RefFunc : String
  deriving Repr, DecidableEq, Inhabited

/-- The relevant part of `xo.Proc` (Go field `Type` spelled `Typ`). -/
structure XoProc where
  Typ : String
  Name : String
  Params : List XoField
  Returns : List XoField
  Void : Bool
  deriving Repr, DecidableEq, Inhabited

/-- The relevant part of `xo.Query` (Go field `Type` spelled `Typ`). -/
structure XoQuery where
  Typ : String
  Fields : List XoField
  ManualFields : Bool
  TypeComment : String
  deriving Repr, DecidableEq, Inhabited

/-- The shared field-conversion loop of `convertIndex`, `convertFKey` and
`convertProc`: converts each field in order, propagating the first
`convertField` error. -/
def convertFieldList (driver schema : String) (tf : String → String) :
    List XoField → Except String (List Field)
  | [] => .ok []
  | z :: zs =>
    match convertField driver schema tf z with
    | .error e => .error e
    | .ok fld =>
      match convertFieldList driver schema tf zs with
      | .error e => .error e
      | .ok fs => .ok (fld :: fs)

/-- `convertIndex` converts an `xo.Index` for a converted table, failing as
soon as an index field's type fails to map. -/
def convertIndex (driver schema : String) (t : Table) (i : XoIndex) : Except String Index :=
  match convertFieldList driver schema pascal i.Fields with
  | .error e => .error e
  | .ok fields =>
    .ok { SQLName := i.Name, Func := pascal i.Func, table := t, Fields := fields,
          IsUnique := i.IsUnique, IsPrimary := i.IsPrimary, Comment := "" }

/-- `convertFKey` converts an `xo.ForeignKey` for a converted table, failing
as soon as an owning-side or referenced-side field's type fails to map. -/
def convertFKey (driver schema : String) (t : Table) (fk : XoForeignKey) :
    Except String ForeignKey :=
  match convertFieldList driver schema snake fk.Fields with
  | .error e => .error e
  | .ok fields =>
    match convertFieldList driver schema snake fk.RefFields with
    | .error e => .error e
    | .ok refFields =>
      .ok { PythonName := snake fk.Func, SQLName := fk.Name, table := t,
            Fields := fields, RefTable := pascal (singularize fk.RefTable),
            RefFields := refFields, RefFunc := snake fk.RefFunc, Comment := "" }

/-- `overloadedName` builds the by-parameter name of an overloaded procedure
(python.go): positional parameter names fall back to the snake of the
space-split sql type, and the parts are joined with `_by_`/`_and_`. -/
def overloadedName (sqlTypes : List String) (proc : Proc) : String :=
  if proc.Params.length = 0 then proc.PythonName
  else
    let names := proc.Params.enum.map fun q =>
      if q.2.SQLName = "p" ++ toString q.1 then
        snake (String.intercalate "_" (splitChar ' ' (sqlTypes.getD q.1 "")))
      else snake q.2.PythonName
    if names.length = 1 then proc.PythonName ++ "_by_" ++ names.getD 0 ""
    else proc.PythonName ++ "_by_" ++ String.join names.dropLast ++ "_and_" ++
      names.getLastD ""

/-- Go map assignment on an association list: replace the entry for the key,
or add one when absent. -/
def setAssoc (m : List (String × List Proc)) (k : String) (v : List Proc) :
    List (String × List Proc) :=
  match m with
  | [] => [(k, v)]
  | (k2, v2) :: rest => if k2 = k then (k, v) :: rest else (k2, v2) :: setAssoc rest k v

/-- `convertProc` converts an `xo.Proc` (python.go): the param and return
fields go through `convertField` (propagating the first error), the signature
and overloaded name are assembled, and the proc is recorded in the overload
map with its name appended to the emission order on first sight.  The Go
in-place map/slice mutation becomes the returned pair. -/
def convertProc (driver schema : String) (overloadMap : List (String × List Proc))
    (order : List String) (p : XoProc) :
    Except String (List String × List (String × List Proc)) :=
  let proc0 : Proc :=
    { Typ := p.Typ, PythonName := snake p.Name, OverloadedName := "", SQLName := p.Name,
      Signature := schema ++ "." ++ p.Name, Params := [], Returns := [],
      Void := p.Void, Overloaded := false, Comment := "" }
  match convertFieldList driver schema snake p.Params with
  | .error e => .error e
  | .ok params =>
    let types := p.Params.map fun z => z.Typ.typ
    let proc1 := { proc0 with
      Params := params,
      Signature := proc0.Signature ++ "Callable[[" ++ String.intercalate ", " types ++ "], " }
    let proc2 := { proc1 with OverloadedName := overloadedName types proc1 }
    match convertFieldList driver schema snake p.Returns with
    | .error e => .error e
    | .ok returns =>
      let rtypes := p.Returns.map fun z => z.Typ.typ
      let proc3 := { proc2 with
        Returns := returns,
        Signature := proc2.Signature ++
          (if !p.Void then
            (if p.Returns.length = 1 then ", " ++ String.intercalate ", " rtypes ++ "]"
             else ", [" ++ String.intercalate ", " rtypes ++ "]]")
           else ", None]") }
      let procs := (overloadMap.lookup proc3.PythonName).getD []
      let order' := if (overloadMap.lookup proc3.PythonName).isNone
                    then order ++ [proc3.PythonName] else order
      .ok (order', setAssoc overloadMap proc3.PythonName (procs ++ [proc3]))

/-- The field loop of `buildQueryType` (python.go): `convertField` is called
for every query field — its error propagates even in manual-fields mode,
where the converted field is then replaced by the user-provided one. -/
def buildQueryTypeFields (driver schema : String) (manual : Bool) :
    List XoField → Except String (List Field)
  | [] => .ok []
  | z :: zs =>
    match convertField driver schema snake z with
    | .error e => .error e
    | .ok fld =>
      let fld := if manual then
        { PythonName := z.Name, SQLName := snake z.Name, Typ := z.Typ.typ,
          Zero := "", IsPrimary := false, IsSequence := false, Comment := "" } else fld
      match buildQueryTypeFields driver schema manual zs with
      | .error e => .error e
      | .ok fs => .ok (fld :: fs)

/-- `buildQueryType` converts a custom query's row shape to a template
`Table`, failing as soon as a field's type fails to map. -/
def buildQueryType (driver schema : String) (query : XoQuery) : Except String Table :=
  match buildQueryTypeFields driver schema query.ManualFields query.Fields with
  | .error e => .error e
  | .ok fields =>
    .ok { Typ := "", PythonName := query.Typ, SQLName := snake query.Typ,
          Fields := fields, PrimaryKeys := [], Manual := false,
          Comment := query.TypeComment }

/-! ### Concrete fixtures

The spec's running example: a table with primary key `(id)` and columns
`(id, name, email)` where `id` is the database-generated key (the spec's
insert/upsert examples all assume the generated primary key), plus one
`Funcs` value per dialect.  The placeholder numbering functions mirror the
dialect conventions of `loader.NthParam` (modelled from the spec:
placeholder syntax is dialect-supplied). -/

/-- Modelled from the spec: postgres positional placeholder numbering. -/
def pgNth (i : Nat) : String := "$" ++ toString (i + 1)

/-- Modelled from the spec: question-mark placeholder numbering
(mysql/sqlite3). -/
def qNth (_ : Nat) : String := "?"

/-- Modelled from the spec: oracle positional placeholder numbering. -/
def oraNth (i : Nat) : String := ":" ++ toString (i + 1)

/-- Modelled from the spec: sqlserver positional placeholder numbering. -/
def msNth (i : Nat) : String := "@p" ++ toString (i + 1)

/-- The generated `id` primary-key column of the example table. -/
def idField : Field :=
  { PythonName := "id", SQLName := "id", Typ := "int", Zero := "0",
    IsPrimary := true, IsSequence := true, Comment := "" }

/-- The `name` column of the example table. -/
def nameField : Field :=
  { PythonName := "name", SQLName := "name", Typ := "str", Zero := "''",
    IsPrimary := false, IsSequence := false, Comment := "" }

/-- The `email` column of the example table. -/
def emailField : Field :=
  { PythonName := "email", SQLName := "email", Typ := "str", Zero := "''",
    IsPrimary := false, IsSequence := false, Comment := "" }

/-- The spec's example table: primary key `(id)`, columns `(id, name, email)`. -/
def exTable : Table :=
  { Typ := "table", PythonName := "User", SQLName := "users",
    PrimaryKeys := [idField], Fields := [idField, nameField, emailField],
    Manual := false, Comment := "" }

/-- An index fixture over the example table. -/
def exIndex : Index :=
  { SQLName := "users_pkey", Func := "UserByID", table := exTable,
    Fields := [idField], IsUnique := true, IsPrimary := true, Comment := "" }

/-- A stored-procedure fixture with one parameter. -/
def exProc : Proc :=
  { Typ := "procedure", PythonName := "do_thing", OverloadedName := "",
    SQLName := "do_thing", Signature := "", Params := [nameField], Returns := [],
    Void := true, Overloaded := false, Comment := "" }

/-- A postgres `Funcs` fixture (no escaping, schema `public`, empty shorts
registry, conflict suffix `_val`). -/
def pgF : Funcs :=
  { driver := "postgres", schema := "public", nth := pgNth, conflict := "_val",
    escSchema := false, escTable := false, escColumn := false,
    oracleType := "", shorts := [] }

/-- A mysql `Funcs` fixture. -/
def myF : Funcs := { pgF with driver := "mysql", nth := qNth }

/-- A sqlserver `Funcs` fixture. -/
def msF : Funcs := { pgF with driver := "sqlserver", nth := msNth }

/-- An oracle `Funcs` fixture with the `godror` oracle-type variant. -/
def oraGodrorF : Funcs :=
  { pgF with driver := "oracle", oracleType := "godror", nth := oraNth }

/-- An oracle `Funcs` fixture with the `ora` oracle-type variant. -/
def oraOraF : Funcs :=
  { pgF with driver := "oracle", oracleType := "ora", nth := oraNth }

/-! ### Structural lemmas about the synthesizer loops -/

/-- The update loop with a nonempty prefix produces one `c = <pre>c`
assignment per non-primary-key field and counts them. -/
theorem update_list_n_with_pre (f : Funcs) (pre : String) (hp : pre ≠ "")
    (zs : List Field) (n : Nat) :
    update_list_n f pre zs n =
      ((zs.filter fun z => !z.IsPrimary).map
         (fun z => colname f z ++ " = " ++ (pre ++ colname f z)),
       n + (zs.filter fun z => !z.IsPrimary).length) := by
  induction zs generalizing n with
  | nil => simp [update_list_n]
  | cons z zs ih =>
    cases hz : z.IsPrimary with
    | true => simp [update_list_n, hz, ih, List.filter_cons]
    | false =>
      simp [update_list_n, hz, ih, List.filter_cons, hp]
      omega

/-- The update loop with an empty prefix numbers the non-primary-key fields
consecutively from the starting counter. -/
theorem update_list_n_empty (f : Funcs) (zs : List Field) (n : Nat) :
    update_list_n f "" zs n =
      ((List.enumFrom n (zs.filter fun z => !z.IsPrimary)).map
         (fun p => colname f p.2 ++ " = " ++ f.nth p.1),
       n + (zs.filter fun z => !z.IsPrimary).length) := by
  induction zs generalizing n with
  | nil => simp [update_list_n]
  | cons z zs ih =>
    cases hz : z.IsPrimary with
    | true => simp [update_list_n, hz, ih, List.filter_cons]
    | false =>
      simp [update_list_n, hz, ih, List.filter_cons, List.enumFrom]
      omega

/-- The insert loop lists the kept columns in order and numbers their
placeholders consecutively from the starting counter. -/
theorem insert_fields_vals_eq (f : Funcs) (all : Bool) (zs : List Field) (n : Nat) :
    insert_fields_vals f all zs n =
      ((zs.filter fun z => !(z.IsSequence && !all)).map (colname f),
       (List.range' n (zs.filter fun z => !(z.IsSequence && !all)).length).map f.nth) := by
  cases all with
  | true =>
    induction zs generalizing n with
    | nil => simp [insert_fields_vals]
    | cons z zs ih => simp [insert_fields_vals, ih, List.range'_succ]
  | false =>
    induction zs generalizing n with
    | nil => simp [insert_fields_vals]
    | cons z zs ih =>
      cases hz : z.IsSequence with
      | true => simp [insert_fields_vals, hz, ih, List.filter_cons]
      | false => simp [insert_fields_vals, hz, ih, List.filter_cons, List.range'_succ]

/-- The MERGE param loop in declarative form: update params over the
non-sequence non-primary fields, insert params/values over the non-sequence
fields. -/
theorem merge_params_eq (zs : List Field) :
    merge_params zs =
      ((zs.filter fun z => !z.IsSequence && !z.IsPrimary).map
         (fun z => "t." ++ z.SQLName ++ " = s." ++ z.SQLName),
       (zs.filter fun z => !z.IsSequence).map Field.SQLName,
       (zs.filter fun z => !z.IsSequence).map (fun z => "s." ++ z.SQLName)) := by
  induction zs with
  | nil => simp [merge_params]
  | cons z zs ih =>
    cases hs : z.IsSequence with
    | true => simp [merge_params, hs, ih, List.filter_cons]
    | false =>
      cases hp : z.IsPrimary with
      | true => simp [merge_params, hs, hp, ih, List.filter_cons]
      | false => simp [merge_params, hs, hp, ih, List.filter_cons]

/-- The mysql VALUES loop in declarative form: one entry per non-sequence
field, in order. -/
theorem mysql_update_list_eq (f : Funcs) (zs : List Field) :
    mysql_update_list f zs =
      (zs.filter fun z => !z.IsSequence).map
        (fun z => colname f z ++ " = VALUES(" ++ colname f z ++ ")") := by
  induction zs with
  | nil => simp [mysql_update_list]
  | cons z zs ih =>
    cases hs : z.IsSequence with
    | true => simp [mysql_update_list, hs, ih, List.filter_cons]
    | false => simp [mysql_update_list, hs, ih, List.filter_cons]

/-- The `count` accumulated by the `sqlstr_insert` scan equals the number of
non-sequence fields. -/
theorem seq_count_snd (zs : List Field) :
    (seq_count zs).2 = (zs.filter fun z => !z.IsSequence).length := by
  have h : ∀ (acc : Field × Nat),
      (zs.foldl (fun acc field =>
        if field.IsSequence then (field, acc.2) else (acc.1, acc.2 + 1)) acc).2 =
        acc.2 + (zs.filter fun z => !z.IsSequence).length := by
    induction zs with
    | nil => intro acc; simp
    | cons z zs ih =>
      intro acc
      cases hs : z.IsSequence with
      | true => simp [hs, ih, List.filter_cons]
      | false => simp [hs, ih, List.filter_cons]; omega
  simpa using h (default, 0)

/-- For a non-sqlite3 driver every branch of `pythonType` is an error. -/
theorem pythonType_ne_sqlite3 (driver schema : String) (typ : XoType)
    (hd : driver ≠ "sqlite3") :
    ∃ e, pythonType driver schema typ = .error e := by
  by_cases h1 : driver = "mysql"
  · exact ⟨"mysql driver not supported for python", by simp [pythonType, h1]⟩
  by_cases h2 : driver = "oracle"
  · exact ⟨"oracle driver not supported for python", by simp [pythonType, h1, h2]⟩
  by_cases h3 : driver = "postgres"
  · exact ⟨"postgres driver not supported for python", by simp [pythonType, h1, h2, h3]⟩
  by_cases h4 : driver = "sqlserver"
  · exact ⟨"sqlserver driver not supported for python", by simp [pythonType, h1, h2, h3, h4, hd]⟩
  exact ⟨"unknown driver \"" ++ driver ++ "\"", by simp [pythonType, h1, h2, h3, h4, hd]⟩

/-! ### Claim theorems -/

/-- C1: for every table and a postgres or sqlite3 driver, the upsert is the
full-field INSERT followed by an `ON CONFLICT (<primary-key columns joined
by comma>) DO UPDATE SET` clause with one `c = EXCLUDED.c` assignment per
non-primary-key column, in column order; and for the example table with
primary key `(id)` and columns `(id, name, email)` the appended clause text
is exactly `ON CONFLICT (id) DO UPDATE SET name = EXCLUDED.name,
email = EXCLUDED.email` (with the separating spaces of the fragment
boundaries). -/
theorem claim_upsert_postgres_sqlite (f : Funcs) (T : Table)
    (hd : f.driver = "postgres" ∨ f.driver = "sqlite3") :
    sqlstr_upsert f (.tbl T) =
      sqlstr_insert_base f true (.tbl T) ++
        [" ON CONFLICT (" ++ String.intercalate ", " (T.PrimaryKeys.map Field.SQLName) ++ ") DO ",
         "UPDATE SET ",
         String.intercalate ", "
           ((T.Fields.filter fun z => !z.IsPrimary).map fun z =>
              colname f z ++ " = " ++ ("EXCLUDED." ++ colname f z)) ++ " "] ∧
    String.join (sqlstr_upsert_postgres_sqlite pgF (.tbl exTable)) =
      " ON CONFLICT (id) DO UPDATE SET name = EXCLUDED.name, email = EXCLUDED.email " := by
  refine ⟨?_, by decide⟩
  rcases hd with h | h <;>
    simp [sqlstr_upsert, h, sqlstr_upsert_postgres_sqlite, sqlstr_update_base,
      update_list_n_with_pre f "EXCLUDED." (by decide) T.Fields 0]

/-- Witness for C1: the postgres upsert of the example table, computed in
full. -/
theorem claim_upsert_postgres_sqlite_witness :
    sqlstr_upsert pgF (.tbl exTable) =
      ["INSERT INTO public.users (", "id, name, email", ") VALUES (", "$1, $2, $3", ")",
       " ON CONFLICT (id) DO ", "UPDATE SET ",
       "name = EXCLUDED.name, email = EXCLUDED.email "] :=
  ((claim_upsert_postgres_sqlite pgF exTable (Or.inl rfl)).1).trans (by decide)

/-- C2: for every table and a sqlserver or oracle driver, the upsert is a
MERGE statement whose USING source SELECTs one positional placeholder per
column aliased by the column name, joined on equality of every primary-key
column, whose WHEN MATCHED THEN UPDATE branch assigns exactly the columns
that are neither primary-key nor sequence, and whose WHEN NOT MATCHED THEN
INSERT branch lists exactly the non-sequence columns — so no sequence column
appears in either branch. -/
theorem claim_upsert_merge (f : Funcs) (T : Table)
    (hd : f.driver = "sqlserver" ∨ f.driver = "oracle") :
    sqlstr_upsert f (.tbl T) =
      (if f.driver = "sqlserver"
        then ["MERGE " ++ schemafn f [T.SQLName] ++ " AS t "]
        else ["MERGE " ++ schemafn f [T.SQLName] ++ "t "]) ++
      ["USING (",
       "SELECT " ++ String.intercalate ", "
         (T.Fields.enum.map fun p => f.nth p.1 ++ " " ++ p.2.SQLName) ++ " ",
       (if f.driver = "sqlserver" then ") AS s " else "FROM DUAL ) s "),
       "ON " ++ String.intercalate " AND "
         (T.PrimaryKeys.map fun z => "s." ++ z.SQLName ++ " = t." ++ z.SQLName) ++ " ",
       "WHEN MATCHED THEN ", "UPDATE SET ",
       String.intercalate ", "
         ((T.Fields.filter fun z => !z.IsSequence && !z.IsPrimary).map fun z =>
            "t." ++ z.SQLName ++ " = s." ++ z.SQLName) ++ " ",
       "WHEN NOT MATCHED THEN ", "INSERT (",
       String.intercalate ", " ((T.Fields.filter fun z => !z.IsSequence).map Field.SQLName),
       ") VALUES (",
       String.intercalate ", "
         ((T.Fields.filter fun z => !z.IsSequence).map fun z => "s." ++ z.SQLName),
       ");"] := by
  rcases hd with h | h <;>
    simp [sqlstr_upsert, h, sqlstr_upsert_sqlserver_oracle, merge_params_eq]

/-- Witness for C2: the sqlserver MERGE upsert of the example table. -/
theorem claim_upsert_merge_witness :
    sqlstr_upsert msF (.tbl exTable) =
      ["MERGE public.users AS t ", "USING (", "SELECT @p1 id, @p2 name, @p3 email ",
       ") AS s ", "ON s.id = t.id ", "WHEN MATCHED THEN ", "UPDATE SET ",
       "t.name = s.name, t.email = s.email ", "WHEN NOT MATCHED THEN ", "INSERT (",
       "name, email", ") VALUES (", "s.name, s.email", ");"] :=
  (claim_upsert_merge msF exTable (Or.inl rfl)).trans (by decide)

/-- C3: for every table and the mysql driver, the upsert appends to the
full-field INSERT an `ON DUPLICATE KEY UPDATE` clause with exactly one
`c = VALUES(c)` entry per non-sequence column, in column order; for the
example table — whose `id` is the database-generated (sequence) primary key —
the clause is `name = VALUES(name), email = VALUES(email)`. -/
theorem claim_upsert_mysql (f : Funcs) (T : Table) (hd : f.driver = "mysql") :
    sqlstr_upsert f (.tbl T) =
      sqlstr_insert_base f true (.tbl T) ++
        [" ON DUPLICATE KEY UPDATE ",
         String.intercalate ", "
           ((T.Fields.filter fun z => !z.IsSequence).map fun z =>
              colname f z ++ " = VALUES(" ++ colname f z ++ ")")] ∧
    sqlstr_upsert_mysql myF (.tbl exTable) =
      [" ON DUPLICATE KEY UPDATE ", "name = VALUES(name), email = VALUES(email)"] := by
  refine ⟨?_, by decide⟩
  simp [sqlstr_upsert, hd, sqlstr_upsert_mysql, mysql_update_list_eq]

/-- Witness for C3: the mysql upsert of the example table, computed in
full. -/
theorem claim_upsert_mysql_witness :
    sqlstr_upsert myF (.tbl exTable) =
      ["INSERT INTO public.users (", "id, name, email", ") VALUES (", "?, ?, ?", ")",
       " ON DUPLICATE KEY UPDATE ", "name = VALUES(name), email = VALUES(email)"] :=
  ((claim_upsert_mysql myF exTable rfl).1).trans (by decide)

/-- C4 (amended): the generated-key suffix of `sqlstr_insert` — postgres
appends `RETURNING <seq column>`, sqlserver appends the SCOPE_IDENTITY
statement, oracle with the `ora` variant appends an INTO-bound output
parameter whose placeholder index equals the number of input placeholders
(`seq_count`'s second component, proved equal to the non-sequence column
count and to the number of bound placeholders), oracle with the `godror`
variant binds the named parameter `:pk` instead, oracle with an unrecognized
variant replaces the output by an error placeholder, and mysql/sqlite3
append nothing. -/
theorem claim_insert_returning (f : Funcs) (T : Table) :
    ((seq_count T.Fields).2 = (T.Fields.filter fun z => !z.IsSequence).length ∧
     (insert_fields_vals f false T.Fields 0).2.length = (seq_count T.Fields).2) ∧
    (f.driver = "postgres" →
      sqlstr_insert f (.tbl T) =
        append_last (sqlstr_insert_base f false (.tbl T))
          (" RETURNING " ++ colname f (seq_count T.Fields).1)) ∧
    (f.driver = "sqlserver" →
      sqlstr_insert f (.tbl T) =
        append_last (sqlstr_insert_base f false (.tbl T))
          "; SELECT ID = CONVERT(BIGINT, SCOPE_IDENTITY())") ∧
    (f.driver = "oracle" → f.oracleType = "ora" →
      sqlstr_insert f (.tbl T) =
        append_last (sqlstr_insert_base f false (.tbl T))
          (" RETURNING " ++ colname f (seq_count T.Fields).1 ++ " INTO " ++
            f.nth (seq_count T.Fields).2)) ∧
    (f.driver = "oracle" → f.oracleType = "godror" →
      sqlstr_insert f (.tbl T) =
        append_last (sqlstr_insert_base f false (.tbl T))
          (" RETURNING " ++ colname f (seq_count T.Fields).1 ++ " /*LASTINSERTID*/ INTO :pk")) ∧
    (f.driver = "oracle" → f.oracleType ≠ "ora" → f.oracleType ≠ "godror" →
      sqlstr_insert f (.tbl T) =
        ["[[ UNSUPPORTED ORACLE TYPE: " ++ f.oracleType ++ "]]"]) ∧
    (f.driver = "mysql" ∨ f.driver = "sqlite3" →
      sqlstr_insert f (.tbl T) = sqlstr_insert_base f false (.tbl T)) := by
  refine ⟨⟨seq_count_snd T.Fields, ?_⟩, ?_, ?_, ?_, ?_, ?_, ?_⟩
  · simp [insert_fields_vals_eq, seq_count_snd]
  · intro h; simp [sqlstr_insert, h]
  · intro h; simp [sqlstr_insert, h]
  · intro h h2; simp [sqlstr_insert, h, h2]
  · intro h h2; simp [sqlstr_insert, h, h2]
  · intro h h2 h3; simp [sqlstr_insert, h, h2, h3]
  · rintro (h | h) <;> simp [sqlstr_insert, h]

/-- Counterexample for C4 as stated: with the oracle `godror` variant the
insert suffix binds the named output parameter `:pk` — its last line is not
the claimed positional `RETURNING id INTO <nth 2>` form (here `nth 2` would
be `:3`, continuing after the two input placeholders). -/
theorem claim_insert_returning_counterexample :
    sqlstr_insert oraGodrorF (.tbl exTable) =
      ["INSERT INTO public.users (", "name, email", ") VALUES (", ":1, :2",
       ") RETURNING id /*LASTINSERTID*/ INTO :pk"] ∧
    (sqlstr_insert oraGodrorF (.tbl exTable)).getLast? ≠
      some (")" ++ " RETURNING " ++ "id" ++ " INTO " ++ oraGodrorF.nth 2) := by
  decide

/-- Witness for C4's amended theorem: the oracle `ora` variant on the example
table continues the positional numbering — two input placeholders, output
placeholder `:3`. -/
theorem claim_insert_returning_witness :
    sqlstr_insert oraOraF (.tbl exTable) =
      ["INSERT INTO public.users (", "name, email", ") VALUES (", ":1, :2",
       ") RETURNING id INTO :3"] := by
  have h := (claim_insert_returning oraOraF exTable).2.2.2.1 rfl rfl
  exact h.trans (by decide)

/-- C5 (amended): the insert-all (manual) variant binds one placeholder per
column of the table, while the plain insert binds one per non-sequence
column; in both cases the placeholders are assigned consecutively in column
order starting at index 0. -/
theorem claim_insert_param_counts (f : Funcs) (T : Table) :
    sqlstr_insert_manual f (.tbl T) =
      ["INSERT INTO " ++ schemafn f [T.SQLName] ++ " (",
       String.intercalate ", " (T.Fields.map (colname f)),
       ") VALUES (",
       String.intercalate ", " ((List.range T.Fields.length).map f.nth),
       ")"] ∧
    (insert_fields_vals f false T.Fields 0).2 =
      (List.range (T.Fields.filter fun z => !z.IsSequence).length).map f.nth := by
  constructor
  · simp [sqlstr_insert_manual, sqlstr_insert_base, insert_fields_vals_eq,
      List.range_eq_range']
  · simp [insert_fields_vals_eq, List.range_eq_range']

/-- Counterexample for C5 as stated: on the example table (which has one
sequence column) the manual-mode insert binds 3 placeholders — the number of
all columns — while the claim demands the non-sequence count 2 in manual
mode. -/
theorem claim_insert_param_counts_counterexample :
    (insert_fields_vals pgF true exTable.Fields 0).2.length = 3 ∧
    (exTable.Fields.filter fun z => !z.IsSequence).length = 2 ∧
    sqlstr_insert_manual pgF (.tbl exTable) =
      ["INSERT INTO public.users (", "id, name, email", ") VALUES (", "$1, $2, $3", ")"] := by
  decide

/-- C6: the update statement puts every non-primary-key column in the SET
clause with placeholders numbered consecutively from 0, and every
primary-key column in the AND-joined WHERE clause with placeholder index
equal to the SET count plus its position; for the example table (2 non-key
columns, 1 primary key) the WHERE placeholder index is 2 (`$3` under the
postgres numbering). -/
theorem claim_update_placeholders (f : Funcs) (T : Table)
    (_hnk : (T.Fields.filter fun z => !z.IsPrimary) ≠ []) :
    sqlstr_update f (.tbl T) =
      ["UPDATE " ++ (schemafn f [T.SQLName] ++ " ") ++ "SET ",
       String.intercalate ", "
         ((List.enumFrom 0 (T.Fields.filter fun z => !z.IsPrimary)).map fun p =>
            colname f p.2 ++ " = " ++ f.nth p.1) ++ " ",
       "WHERE " ++ String.intercalate " AND "
         (T.PrimaryKeys.enum.map fun p =>
            colname f p.2 ++ " = " ++
              f.nth ((T.Fields.filter fun z => !z.IsPrimary).length + p.1))] ∧
    sqlstr_update pgF (.tbl exTable) =
      ["UPDATE public.users SET ", "name = $1, email = $2 ", "WHERE id = $3"] := by
  refine ⟨?_, by decide⟩
  simp [sqlstr_update, sqlstr_update_base, update_list_n_empty]

/-- Witness for C6: the update statement of the example table with the
placeholder continuing at `$3`. -/
theorem claim_update_placeholders_witness :
    sqlstr_update pgF (.tbl exTable) =
      ["UPDATE public.users SET ", "name = $1, email = $2 ", "WHERE id = $3"] :=
  (claim_update_placeholders pgF exTable (by decide)).2

/-- C7 (amended): unsupported operation/input/dialect combinations embed a
marked artifact in the returned fragment instead of failing or being
skipped — an unknown operation name yields the `UNKNOWN QUERY TYPE` string,
an upsert for a driver with no branch yields the `UNSUPPORTED TYPE 21`
fragment, an input of the wrong kind yields the numbered
`UNSUPPORTED TYPE` fragment of the respective builder, and the proc/func
builders with a driver that has no format branch emit Go's
`%!(EXTRA ...)` empty-format artifact. -/
theorem claim_unsupported_placeholder (f : Funcs) (ind : String) (v : TplData) (typ : String)
    (h : ¬ (typ = "insert_manual" ∨ typ = "insert" ∨ typ = "update" ∨ typ = "upsert" ∨
            typ = "delete" ∨ typ = "proc" ∨ typ = "index")) :
    sqlstr f typ ind v = "sqlstr = `UNKNOWN QUERY TYPE: " ++ typ ++ "`" ∧
    (∀ T : Table,
      ¬ (f.driver = "postgres" ∨ f.driver = "sqlite3" ∨ f.driver = "mysql" ∨
         f.driver = "sqlserver" ∨ f.driver = "oracle") →
      sqlstr_upsert f (.tbl T) =
        [("[[ UNSUPPORTED TYPE 21 " ++ f.driver ++ ": pytpl.Table ]]" : String)]) ∧
    (∀ w : TplData, (∀ t, w ≠ .tbl t) →
      sqlstr_insert_manual f w = [("[[ UNSUPPORTED TYPE 17: " ++ goTypeName w ++ " ]]" : String)] ∧
      sqlstr_insert f w = [("[[ UNSUPPORTED TYPE 18: " ++ goTypeName w ++ " ]]" : String)] ∧
      sqlstr_update f w = [("[[ UNSUPPORTED TYPE 20: " ++ goTypeName w ++ " ]]" : String)] ∧
      sqlstr_upsert f w =
        [("[[ UNSUPPORTED TYPE 21 " ++ f.driver ++ ": " ++ goTypeName w ++ " ]]" : String)] ∧
      sqlstr_delete f w = [("[[ UNSUPPORTED TYPE 25: " ++ goTypeName w ++ " ]]" : String)]) ∧
    (∀ w : TplData, (∀ i, w ≠ .idx i) →
      sqlstr_index f w = [("[[ UNSUPPORTED TYPE 26: " ++ goTypeName w ++ " ]]" : String)]) ∧
    (∀ w : TplData, (∀ p, w ≠ .prc p) →
      sqlstr_proc f w = [("[[ UNSUPPORTED TYPE 27: " ++ goTypeName w ++ " ]]" : String)] ∧
      sqlstr_func f w = [("[[ UNSUPPORTED TYPE 28: " ++ goTypeName w ++ " ]]" : String)]) ∧
    (∀ p : Proc,
      ¬ (f.driver = "postgres" ∨ f.driver = "mysql" ∨ f.driver = "sqlserver" ∨
         f.driver = "oracle") →
      (p.Typ ≠ "function" →
        sqlstr_proc f (.prc p) =
          [sprintfExtra2 (schemafn f [p.SQLName])
            (String.intercalate ", " (p.Params.enum.map fun q => f.nth q.1))]) ∧
      sqlstr_func f (.prc p) =
        [sprintfExtra2 (schemafn f [p.SQLName])
          (String.intercalate ", " (p.Params.enum.map fun q => f.nth q.1))]) := by
  refine ⟨?_, ?_, ?_, ?_, ?_, ?_⟩
  · push_neg at h
    obtain ⟨h1, h2, h3, h4, h5, h6, h7⟩ := h
    simp [sqlstr, h1, h2, h3, h4, h5, h6, h7]
  · intro T hdr
    push_neg at hdr
    obtain ⟨d1, d2, d3, d4, d5⟩ := hdr
    simp [sqlstr_upsert, d1, d2, d3, d4, d5, goTypeName, String.append_assoc]
  · intro w hw
    cases w with
    | tbl t => exact absurd rfl (hw t)
    | idx i =>
      simp [sqlstr_insert_manual, sqlstr_insert_base, sqlstr_insert, sqlstr_update,
        sqlstr_upsert, sqlstr_delete, goTypeName, String.append_assoc]
    | prc p =>
      simp [sqlstr_insert_manual, sqlstr_insert_base, sqlstr_insert, sqlstr_update,
        sqlstr_upsert, sqlstr_delete, goTypeName, String.append_assoc]
    | other s =>
      simp [sqlstr_insert_manual, sqlstr_insert_base, sqlstr_insert, sqlstr_update,
        sqlstr_upsert, sqlstr_delete, goTypeName, String.append_assoc]
  · intro w hw
    cases w with
    | idx i => exact absurd rfl (hw i)
    | tbl t => simp [sqlstr_index, goTypeName, String.append_assoc]
    | prc p => simp [sqlstr_index, goTypeName, String.append_assoc]
    | other s => simp [sqlstr_index, goTypeName, String.append_assoc]
  · intro w hw
    cases w with
    | prc p => exact absurd rfl (hw p)
    | tbl t => simp [sqlstr_proc, sqlstr_func, goTypeName, String.append_assoc]
    | idx i => simp [sqlstr_proc, sqlstr_func, goTypeName, String.append_assoc]
    | other s => simp [sqlstr_proc, sqlstr_func, goTypeName, String.append_assoc]
  · intro p hdr
    push_neg at hdr
    obtain ⟨d1, d2, d3, d4⟩ := hdr
    constructor
    · intro hfn
      simp [sqlstr_proc, hfn, d1, d2, d3, d4]
    · simp [sqlstr_func, d1, d2, d3, d4]

/-- Counterexample for C7 as stated: at concrete unsupported combinations the
synthesizer returns ordinary placeholder text (an assignment string or a
marked fragment) — no fatal error value exists anywhere in these outputs. -/
theorem claim_unsupported_placeholder_counterexample :
    sqlstr pgF "frobnicate" "    " (.tbl exTable) =
      "sqlstr = `UNKNOWN QUERY TYPE: frobnicate`" ∧
    sqlstr_upsert { pgF with driver := "mssql" } (.tbl exTable) =
      ["[[ UNSUPPORTED TYPE 21 mssql: pytpl.Table ]]"] ∧
    sqlstr_insert_base pgF true (.idx exIndex) = ["[[ UNSUPPORTED TYPE 17: pytpl.Index ]]"] := by
  decide

/-- Witness for C7's amended theorem at a concrete unknown operation, a
concrete unsupported driver (both for the upsert fall-through and the
proc empty-format artifact), and a concrete wrong-kind input. -/
theorem claim_unsupported_placeholder_witness :
    sqlstr { pgF with driver := "db2" } "frobnicate" "  " (.tbl exTable) =
      "sqlstr = `UNKNOWN QUERY TYPE: frobnicate`" ∧
    sqlstr_upsert { pgF with driver := "db2" } (.tbl exTable) =
      ["[[ UNSUPPORTED TYPE 21 db2: pytpl.Table ]]"] ∧
    sqlstr_insert { pgF with driver := "db2" } (.idx exIndex) =
      ["[[ UNSUPPORTED TYPE 18: pytpl.Index ]]"] ∧
    sqlstr_proc { pgF with driver := "db2" } (.prc exProc) =
      ["%!(EXTRA string=public.do_thing, string=$1)"] := by
  have h := claim_unsupported_placeholder { pgF with driver := "db2" } "  " (.tbl exTable)
    "frobnicate" (by decide)
  refine ⟨h.1, (h.2.1 exTable (by decide)).trans (by decide), ?_, ?_⟩
  · exact ((h.2.2.1 (.idx exIndex) (fun t => by simp)).2.1).trans (by decide)
  · exact ((h.2.2.2.2.2 exProc (by decide)).1 (by decide)).trans (by decide)

/-- C8: the shorts registry laws — calling `short` twice for the same name
returns the same result and the same registry; the first call for an
unregistered name stores the derived abbreviation keyed by the name (the
pre-existing entries preserved as the tail); a call for an already-registered
name returns the cached value (with only the conflict-suffix decoration) and
leaves the registry completely unchanged. -/
theorem claim_short_registry (f : Funcs) (n : String) :
    ((short (short f (.str n)).2 (.str n)).1 = (short f (.str n)).1 ∧
     (short (short f (.str n)).2 (.str n)).2 = (short f (.str n)).2) ∧
    (f.shorts.lookup n = none →
      (short f (.str n)).2.shorts = (n, checkName (short_initials n)) :: f.shorts) ∧
    (∀ v, f.shorts.lookup n = some v →
      (short f (.str n)).1 =
        (if templateReservedNames.contains v then v ++ f.conflict else v) ∧
      (short f (.str n)).2 = f) := by
  cases h : f.shorts.lookup n with
  | none =>
    refine ⟨?_, fun _ => by simp [short, h], fun v hv => by simp at hv⟩
    simp [short, h, List.lookup]
  | some v =>
    refine ⟨?_, fun hn => by simp at hn, fun w hw => ?_⟩
    · simp [short, h]
    · obtain rfl : v = w := by simpa using hw
      exact ⟨by simp [short, h], by simp [short, h]⟩

/-- Witness for C8: deriving `UserAccount` against the empty registry stores
the abbreviation `ua` keyed by the full name. -/
theorem claim_short_registry_witness :
    (short pgF (.str "UserAccount")).2.shorts = [("UserAccount", "ua")] := by
  have h := (claim_short_registry pgF "UserAccount").2.1 rfl
  rw [h]; decide

/-- C9 (amended): for an unregistered name the returned short is the
initials of its words (stop-word `id` excluded) passed through the python
reserved-name substitution `checkName`, with the conflict suffix appended
exactly once when the result is a template-reserved name; `UserAccount`
yields `ua`, and `DataBase` — whose initials `db` are template-reserved —
yields `db` plus the configured suffix. -/
theorem claim_short_derivation (f : Funcs) (n : String) (h : f.shorts.lookup n = none) :
    (short f (.str n)).1 =
      (if templateReservedNames.contains (checkName (short_initials n))
        then checkName (short_initials n) ++ f.conflict
        else checkName (short_initials n)) ∧
    (short pgF (.str "UserAccount")).1 = "ua" ∧
    (short pgF (.str "DataBase")).1 = "db" ++ pgF.conflict := by
  refine ⟨?_, by decide, by decide⟩
  simp [short, h]

/-- Counterexample for C9 as stated: the derived short name is not always the
raw concatenation of word initials — for `ImageSet` the initials `is` hit the
python reserved-name map and the function returns `is_`. -/
theorem claim_short_derivation_counterexample :
    (short pgF (.str "ImageSet")).1 = "is_" ∧
    short_initials "ImageSet" = "is" ∧
    ("is_" : String) ≠ "is" := by
  decide

/-- Witness for C9's amended theorem: `UserAccount` derives `ua` against the
empty registry. -/
theorem claim_short_derivation_witness :
    (short pgF (.str "UserAccount")).1 = "ua" :=
  (claim_short_derivation pgF "UserAccount" rfl).2.1

/-- C10: the type mapper succeeds only for the sqlite3 driver — for every
other driver (the four named ones and any unknown string) `pythonType`
returns an error, `convertField` therefore fails for every field and
transform, and every conversion that calls it — table, index, foreign-key,
procedure and query-type — fails as soon as it has a field to convert. -/
theorem claim_pythonType_sqlite3_only (driver schema : String) (typ : XoType)
    (tf : String → String) (fld : XoField) (t : XoTable) (t2 : Table)
    (xi : XoIndex) (fk : XoForeignKey) (xp : XoProc) (q : XoQuery)
    (m : List (String × List Proc)) (order : List String)
    (hd : driver ≠ "sqlite3") :
    (∃ e, pythonType driver schema typ = .error e) ∧
    (∃ e, convertField driver schema tf fld = .error e) ∧
    (t.Columns ≠ [] → ∃ e, convertTable driver schema t = .error e) ∧
    (xi.Fields ≠ [] → ∃ e, convertIndex driver schema t2 xi = .error e) ∧
    (fk.Fields ≠ [] ∨ fk.RefFields ≠ [] → ∃ e, convertFKey driver schema t2 fk = .error e) ∧
    (xp.Params ≠ [] ∨ xp.Returns ≠ [] →
      ∃ e, convertProc driver schema m order xp = .error e) ∧
    (q.Fields ≠ [] → ∃ e, buildQueryType driver schema q = .error e) := by
  have hf : ∀ g : String → String, ∀ z : XoField,
      ∃ e, convertField driver schema g z = .error e := by
    intro g z
    obtain ⟨e, he⟩ := pythonType_ne_sqlite3 driver schema z.Typ hd
    exact ⟨e, by simp [convertField, he]⟩
  have hl : ∀ g : String → String, ∀ zs : List XoField, zs ≠ [] →
      ∃ e, convertFieldList driver schema g zs = .error e := by
    intro g zs hzs
    cases zs with
    | nil => exact absurd rfl hzs
    | cons z zs =>
      obtain ⟨e, he⟩ := hf g z
      exact ⟨e, by simp [convertFieldList, he]⟩
  refine ⟨pythonType_ne_sqlite3 driver schema typ hd, hf tf fld, ?_, ?_, ?_, ?_, ?_⟩
  · intro hc
    cases ht : t.Columns with
    | nil => exact absurd ht hc
    | cons z zs =>
      obtain ⟨e, he⟩ := hf pascal z
      exact ⟨e, by simp [convertTable, ht, convertColumns, he]⟩
  · intro hc
    obtain ⟨e, he⟩ := hl pascal xi.Fields hc
    exact ⟨e, by simp [convertIndex, he]⟩
  · intro hc
    by_cases hfk : fk.Fields = []
    · have hrf : fk.RefFields ≠ [] := by
        rcases hc with hc | hc
        · exact absurd hfk hc
        · exact hc
      obtain ⟨e, he⟩ := hl snake fk.RefFields hrf
      exact ⟨e, by simp [convertFKey, hfk, convertFieldList, he]⟩
    · obtain ⟨e, he⟩ := hl snake fk.Fields hfk
      exact ⟨e, by simp [convertFKey, he]⟩
  · intro hc
    by_cases hpp : xp.Params = []
    · have hpr : xp.Returns ≠ [] := by
        rcases hc with hc | hc
        · exact absurd hpp hc
        · exact hc
      obtain ⟨e, he⟩ := hl snake xp.Returns hpr
      exact ⟨e, by simp [convertProc, hpp, convertFieldList, he]⟩
    · obtain ⟨e, he⟩ := hl snake xp.Params hpp
      exact ⟨e, by simp [convertProc, he]⟩
  · intro hc
    cases hq : q.Fields with
    | nil => exact absurd hq hc
    | cons z zs =>
      obtain ⟨e, he⟩ := hf snake z
      exact ⟨e, by simp [buildQueryType, buildQueryTypeFields, hq, he]⟩

/-- Witness for C10: the mysql driver fails the type mapper, the field
conversion and every table/index/foreign-key/procedure/query-type conversion
on concrete inputs. -/
theorem claim_pythonType_sqlite3_only_witness :
    (∃ e, pythonType "mysql" "public" ⟨"text", false⟩ = .error e) ∧
    (∃ e, convertField "mysql" "public" (fun s => s)
        ⟨"name", ⟨"text", false⟩, false, false⟩ = .error e) ∧
    (∃ e, convertTable "mysql" "public"
        ⟨"users", [⟨"id", ⟨"integer", false⟩, true, true⟩], false⟩ = .error e) ∧
    (∃ e, convertIndex "mysql" "public" exTable
        ⟨"users_pkey", "user_by_id", [⟨"id", ⟨"integer", false⟩, true, true⟩],
         true, true⟩ = .error e) ∧
    (∃ e, convertFKey "mysql" "public" exTable
        ⟨"fk_owner", "owner", [⟨"owner_id", ⟨"integer", false⟩, false, false⟩],
         "owners", [⟨"id", ⟨"integer", false⟩, true, true⟩], "owner_ref"⟩ = .error e) ∧
    (∃ e, convertProc "mysql" "public" [] []
        ⟨"procedure", "do_thing", [⟨"arg", ⟨"text", false⟩, false, false⟩], [],
         true⟩ = .error e) ∧
    (∃ e, buildQueryType "mysql" "public"
        ⟨"UserRow", [⟨"name", ⟨"text", false⟩, false, false⟩], false, ""⟩ = .error e) := by
  have h := claim_pythonType_sqlite3_only "mysql" "public" ⟨"text", false⟩ (fun s => s)
    ⟨"name", ⟨"text", false⟩, false, false⟩
    ⟨"users", [⟨"id", ⟨"integer", false⟩, true, true⟩], false⟩ exTable
    ⟨"users_pkey", "user_by_id", [⟨"id", ⟨"integer", false⟩, true, true⟩], true, true⟩
    ⟨"fk_owner", "owner", [⟨"owner_id", ⟨"integer", false⟩, false, false⟩],
     "owners", [⟨"id", ⟨"integer", false⟩, true, true⟩], "owner_ref"⟩
    ⟨"procedure", "do_thing", [⟨"arg", ⟨"text", false⟩, false, false⟩], [], true⟩
    ⟨"UserRow", [⟨"name", ⟨"text", false⟩, false, false⟩], false, ""⟩
    [] [] (by decide)
  exact ⟨h.1, h.2.1, h.2.2.1 (by decide), h.2.2.2.1 (by decide),
    h.2.2.2.2.1 (Or.inl (by decide)), h.2.2.2.2.2.1 (Or.inl (by decide)),
    h.2.2.2.2.2.2 (by decide)⟩

end Pytpl
